import Mathlib

/-!
Verification of the Call4Me scheduling and call-lifecycle engine.

Shallow embedding of the core sources:
- `src/services/twilio.ts`    (call executor, lifecycle state machine, TwiML builder)
- `src/services/scheduler.ts` (job registry and scheduler)
- the calls API router        (create / trigger endpoints)
- the Twilio webhooks router  (status callback, TwiML endpoint)

Stores are modelled as lists of rows; persistence operations are total
(the store never fails).  Timestamps are `Int` (epoch instants); `new Date()`
becomes an explicit `now` parameter.  The external telephony provider is a
parameter `provider : CallOptions → Except String String` returning either a
thrown error message or the provider-assigned call SID.  JavaScript string
falsiness (`!x` true for `""`/`null`/`undefined`) is modelled by comparing
with `""` resp. by `jsTruthy` on `Option String`.
-/

/-- JavaScript truthiness of a nullable string: `null`/`undefined` and `""`
are falsy, everything else truthy. -/
def jsTruthy : Option String → Bool
  | none => false
  | some s => s ≠ ""

/-- Does the character list start with the given pattern? -/
def startsWith : List Char → List Char → Bool
  | _, [] => true
  | [], _ :: _ => false
  | c :: cs, d :: ds => c == d && startsWith cs ds

/-- Does the character list contain the pattern as a contiguous sublist? -/
def containsSub : List Char → List Char → Bool
  | [], needle => needle.isEmpty
  | c :: rest, needle => startsWith (c :: rest) needle || containsSub rest needle

/-- JavaScript `hay.includes(needle)`. -/
def strIncludes (hay needle : String) : Bool :=
  containsSub hay.data needle.data

/-- Replace the first occurrence of `pat` by `rep` in a character list. -/
def replaceFirstAux : List Char → List Char → List Char → List Char
  | [], _, _ => []
  | c :: rest, pat, rep =>
    if startsWith (c :: rest) pat then rep ++ (c :: rest).drop pat.length
    else c :: replaceFirstAux rest pat rep

/-- JavaScript `s.replace(pat, rep)` with a string pattern: replaces only the
first occurrence. -/
def replaceFirst (s pat rep : String) : String :=
  ⟨replaceFirstAux s.data pat.data rep.data⟩

/-- ASCII lower-casing of one character (`toLowerCase` as it acts on URLs). -/
def charLower (c : Char) : Char :=
  if 'A' ≤ c ∧ c ≤ 'Z' then Char.ofNat (c.toNat + 32) else c

/-- ASCII lower-casing of a string (`url.toLowerCase()` on URLs). -/
def strLower (s : String) : String :=
  ⟨s.data.map charLower⟩

/-- The configuration consumed by the call executor (`config` in
`src/config.ts`): credentials, outbound number and public callback base URL.
An unset value is the empty string (JS falsy). -/
structure Config where
  twilioAccountSid : String := ""
  twilioAuthToken : String := ""
  twilioPhoneNumber : String := ""
  appBaseUrl : String := ""
deriving DecidableEq, Repr

/-- One call attempt (the Prisma `CallLog` row). -/
structure CallLog where
  id : String
  scheduledCallId : Option String := none
  contactId : Option String := none
  phoneNumber : String
  recordingId : String
  status : String
  twilioCallSid : Option String := none
  amdResult : Option String := none
  duration : Option Nat := none
  errorCode : Option String := none
  errorMessage : Option String := none
  answeredAt : Option Int := none
  endedAt : Option Int := none
  retryOf : Option String := none
deriving DecidableEq, Repr

/-- A durable scheduled call (the Prisma `ScheduledCall` row, with the joined
recording's filename inlined). -/
structure ScheduledCall where
  id : String
  phoneNumber : String
  contactId : Option String := none
  recordingId : String
  recordingFilename : String := ""
  machineDetection : String := "DetectMessageEnd"
  machineDetectionTimeout : Int := 30
  postBeepDelay : Int := 0
  twilioOptionsJson : String := "{}"
  scheduledAt : Int
  nextRunAt : Option Int := none
  recurrencePattern : Option String := none
  recurrenceEnabled : Bool := false
  status : String := "pending"
  lastRunAt : Option Int := none
deriving DecidableEq, Repr

/-- The durable store: CallLog and ScheduledCall tables. -/
structure Store where
  callLogs : List CallLog := []
  scheduledCalls : List ScheduledCall := []
deriving DecidableEq, Repr

/-- Prisma `callLog.update({ where: { id }, data })`. -/
def updateCallLog (s : Store) (id : String) (f : CallLog → CallLog) : Store :=
  { s with callLogs := s.callLogs.map fun l => if l.id = id then f l else l }

/-- Prisma `scheduledCall.update({ where: { id }, data })`. -/
def updateScheduledCall (s : Store) (id : String) (f : ScheduledCall → ScheduledCall) : Store :=
  { s with scheduledCalls := s.scheduledCalls.map fun c => if c.id = id then f c else c }

/-- Prisma `callLog.findFirst({ where: { twilioCallSid } })`. -/
def findCallLogBySid (s : Store) (sid : String) : Option CallLog :=
  s.callLogs.find? fun l => l.twilioCallSid == some sid

/-- Prisma `callLog.findUnique({ where: { id } })`. -/
def findCallLogById (s : Store) (id : String) : Option CallLog :=
  s.callLogs.find? fun l => l.id == id

/-- Prisma `scheduledCall.findUnique({ where: { id } })`. -/
def findScheduledCall (s : Store) (id : String) : Option ScheduledCall :=
  s.scheduledCalls.find? fun c => c.id == id

/-- The relevant keys of the JSON `twilioOptions` override blob
(`JSON.parse(callData.twilioOptions)`): each field is `some v` when the key
is present.  Remaining keys are carried opaquely in `extra`. -/
structure TwilioOverrides where
  to_ : Option String := none
  from_ : Option String := none
  url : Option String := none
  statusCallback : Option String := none
  statusCallbackMethod : Option String := none
  machineDetection : Option String := none
  machineDetectionTimeout : Option Int := none
  asyncAmd : Option String := none
  asyncAmdStatusCallback : Option String := none
  asyncAmdStatusCallbackMethod : Option String := none
  extra : List (String × String) := []
deriving DecidableEq, Repr

/-- Result of `JSON.parse` on the `twilioOptions` string: a parsed object or
a thrown `SyntaxError` message. -/
inductive TwilioOptionsParse where
  | ok (o : TwilioOverrides)
  | err (msg : String)
deriving DecidableEq, Repr

/-- The in-memory call data handed to `triggerCall`
(`ScheduledCallData` in `src/services/twilio.ts`); `id` is `null` for
ad-hoc/retry calls.  `twilioOptions` holds the outcome of parsing the JSON
blob. -/
structure ScheduledCallData where
  id : Option String := none
  phoneNumber : String
  contactId : Option String := none
  recordingId : String
  recordingFilename : String := ""
  machineDetection : String := "DetectMessageEnd"
  machineDetectionTimeout : Int := 30
  postBeepDelay : Int := 0
  twilioOptions : TwilioOptionsParse := .ok {}
deriving DecidableEq, Repr

/-- View a stored ScheduledCall row as the call data handed to
`triggerCall`. -/
def toCallData (c : ScheduledCall) (opts : TwilioOptionsParse) : ScheduledCallData :=
  { id := some c.id
    phoneNumber := c.phoneNumber
    contactId := c.contactId
    recordingId := c.recordingId
    recordingFilename := c.recordingFilename
    machineDetection := c.machineDetection
    machineDetectionTimeout := c.machineDetectionTimeout
    postBeepDelay := c.postBeepDelay
    twilioOptions := opts }

/-- The options object passed to `twilio.calls.create`. -/
structure CallOptions where
  to_ : String
  from_ : String
  url : String
  statusCallback : String
  statusCallbackEvent : List String
  statusCallbackMethod : String
  machineDetection : Option String := none
  machineDetectionTimeout : Option Int := none
  asyncAmd : Option String := none
  asyncAmdStatusCallback : Option String := none
  asyncAmdStatusCallbackMethod : Option String := none
  extra : List (String × String) := []
deriving DecidableEq, Repr

/-- `Object.assign(callOptions, additionalOptions)`: every key present in the
override object overwrites the corresponding option. -/
def assignOverrides (c : CallOptions) (o : TwilioOverrides) : CallOptions :=
  { c with
    to_ := o.to_.getD c.to_
    from_ := o.from_.getD c.from_
    url := o.url.getD c.url
    statusCallback := o.statusCallback.getD c.statusCallback
    statusCallbackMethod := o.statusCallbackMethod.getD c.statusCallbackMethod
    machineDetection := (o.machineDetection.map some).getD c.machineDetection
    machineDetectionTimeout := (o.machineDetectionTimeout.map some).getD c.machineDetectionTimeout
    asyncAmd := (o.asyncAmd.map some).getD c.asyncAmd
    asyncAmdStatusCallback := (o.asyncAmdStatusCallback.map some).getD c.asyncAmdStatusCallback
    asyncAmdStatusCallbackMethod := (o.asyncAmdStatusCallbackMethod.map some).getD c.asyncAmdStatusCallbackMethod
    extra := c.extra ++ o.extra }

/-- `validateBaseUrl` result shape (`{ valid, error? }`). -/
structure UrlCheck where
  valid : Bool
  error : Option String := none
deriving DecidableEq, Repr

/-- `validateBaseUrl` from `src/services/twilio.ts`: the base URL must be set
and must not contain a loopback address. -/
def validateBaseUrl (cfg : Config) : UrlCheck :=
  if cfg.appBaseUrl = "" then
    { valid := false
      error := some "Base URL not configured. Please set up a public URL in Settings > Network." }
  else
    let url := (strLower cfg.appBaseUrl)
    if strIncludes url "localhost" || strIncludes url "127.0.0.1" || strIncludes url "0.0.0.0" then
      { valid := false
        error := some ("Base URL is set to a localhost address (" ++ cfg.appBaseUrl ++
          "). Twilio cannot reach localhost. Please configure a tunnel service in Settings > Network.") }
    else
      { valid := true }

/-- The external provider: `twilio.calls.create`, returning a thrown error
message or the new call SID. -/
abbrev Provider := CallOptions → Except String String

/-- The call options built by `triggerCall` before the override blob is
applied: destination, source number, TwiML and status-callback URLs, the
status events, and — when detection is not `Disabled` — the synchronous
detection options. -/
def buildCallOptions (cfg : Config) (callData : ScheduledCallData)
    (newLogId : String) : CallOptions :=
  let twimlUrl := cfg.appBaseUrl ++ "/api/twilio/twiml/" ++ newLogId
  let statusCallback := cfg.appBaseUrl ++ "/api/twilio/status"
  let callOptions : CallOptions :=
    { to_ := callData.phoneNumber
      from_ := cfg.twilioPhoneNumber
      url := twimlUrl
      statusCallback := statusCallback
      statusCallbackEvent := ["initiated", "ringing", "answered", "completed"]
      statusCallbackMethod := "POST" }
  if callData.machineDetection ≠ "Disabled" then
    { callOptions with
      machineDetection := some callData.machineDetection
      machineDetectionTimeout := some callData.machineDetectionTimeout }
  else callOptions

/-- The options finally handed to the provider: overrides assigned on top of
the built options, then the three async-AMD keys deleted. -/
def finalCallOptions (cfg : Config) (callData : ScheduledCallData) (newLogId : String)
    (addl : TwilioOverrides) : CallOptions :=
  { assignOverrides (buildCallOptions cfg callData newLogId) addl with
    asyncAmd := none
    asyncAmdStatusCallback := none
    asyncAmdStatusCallbackMethod := none }

/-- The body of `triggerCall`'s `try` block up to and including the provider
call: validate that the outbound number is configured, build the call
options, parse and apply the override blob, delete the async-AMD keys,
check the credentials (`getTwilioClient`) and invoke the provider.  Returns
the thrown error or the final options plus SID, together with the options
actually handed to the provider (`none` when the provider was never
invoked). -/
def triggerCallAttempt (cfg : Config) (provider : Provider) (callData : ScheduledCallData)
    (newLogId : String) : Except String (CallOptions × String) × Option CallOptions :=
  if cfg.twilioPhoneNumber = "" then
    (Except.error "Twilio phone number not configured. Complete setup first.", none)
  else
    match callData.twilioOptions with
    | .err m => (Except.error m, none)
    | .ok addl =>
      if cfg.twilioAccountSid = "" || cfg.twilioAuthToken = "" then
        (Except.error "Twilio credentials not configured. Complete setup first.", none)
      else
        match provider (finalCallOptions cfg callData newLogId addl) with
        | Except.error m =>
          (Except.error m, some (finalCallOptions cfg callData newLogId addl))
        | Except.ok sid =>
          (Except.ok (finalCallOptions cfg callData newLogId addl, sid),
           some (finalCallOptions cfg callData newLogId addl))

/-- Outcome of `triggerCall`: the store after all writes, the returned value
or re-raised error, and the options passed to the provider (if reached). -/
structure TriggerOutcome where
  store : Store
  result : Except String (String × String)
  providerCalled : Option CallOptions
deriving Repr

/-- `triggerCall` from `src/services/twilio.ts`: validate the base URL, create
the CallLog with status `initiated`, run the try block, then either write back
the SID or mark the log failed and re-raise. -/
def triggerCall (cfg : Config) (provider : Provider) (s : Store)
    (callData : ScheduledCallData) (retryOf : Option String) (newLogId : String)
    (now : Int) : TriggerOutcome :=
  if (validateBaseUrl cfg).valid = false then
    { store := s
      result := Except.error ((validateBaseUrl cfg).error.getD "")
      providerCalled := none }
  else
    let callLog : CallLog :=
      { id := newLogId
        scheduledCallId := callData.id
        contactId := callData.contactId
        phoneNumber := callData.phoneNumber
        recordingId := callData.recordingId
        status := "initiated"
        retryOf := retryOf }
    let s1 : Store := { s with callLogs := s.callLogs ++ [callLog] }
    match triggerCallAttempt cfg provider callData newLogId with
    | (Except.ok (_, sid), pc) =>
      { store := updateCallLog s1 newLogId fun l => { l with twilioCallSid := some sid }
        result := Except.ok (newLogId, sid)
        providerCalled := pc }
    | (Except.error m, pc) =>
      { store := updateCallLog s1 newLogId fun l =>
          { l with status := "failed", errorMessage := some m, endedAt := some now }
        result := Except.error m
        providerCalled := pc }

/-- The `updates` object built by `updateCallStatus`, applied to the matched
row: set the raw status, overwrite with `answeredAt`/`in_progress` on an
in-progress token, and on a terminal token set `endedAt`, the
hyphen-normalized status, and any truthy duration / error code / error
message. -/
def applyStatusUpdate (callLog : CallLog) (status : String) (duration : Option Nat)
    (errorCode errorMessage : Option String) (now : Int) : CallLog :=
  let l1 : CallLog := { callLog with status := status }
  let l2 :=
    if status = "in-progress" || status = "in_progress" then
      { l1 with answeredAt := some now, status := "in_progress" }
    else l1
  if status = "completed" || status = "failed" || status = "busy" ||
      status = "no-answer" || status = "canceled" then
    let a := { l2 with endedAt := some now, status := replaceFirst status "-" "_" }
    let b :=
      match duration with
      | some d => if d ≠ 0 then { a with duration := some d } else a
      | none => a
    let c :=
      match errorCode with
      | some e => if e ≠ "" then { b with errorCode := some e } else b
      | none => b
    match errorMessage with
    | some e => if e ≠ "" then { c with errorMessage := some e } else c
    | none => c
  else l2

/-- `updateCallStatus` from `src/services/twilio.ts`: correlate by SID (drop
silently when unknown), then persist the updates object onto the matched
row. -/
def updateCallStatus (s : Store) (callSid status : String) (duration : Option Nat)
    (errorCode errorMessage : Option String) (now : Int) : Store :=
  match findCallLogBySid s callSid with
  | none => s
  | some callLog =>
    updateCallLog s callLog.id fun _ =>
      applyStatusUpdate callLog status duration errorCode errorMessage now

/-- `updateAmdResult` from `src/services/twilio.ts`. -/
def updateAmdResult (s : Store) (callSid amdResult : String) : Store :=
  match findCallLogBySid s callSid with
  | none => s
  | some callLog => updateCallLog s callLog.id fun l => { l with amdResult := some amdResult }

/-- An instruction in the TwiML document. -/
inductive TwiMLInstr where
  | pause (length : Int)
  | play (url : String)
  | hangup
deriving DecidableEq, Repr

/-- `generateTwiML` from `src/services/twilio.ts`: build the voice response
by appending a pause (when the post-beep delay is positive), the play
instruction and the hangup. -/
def generateTwiML (audioUrl : String) (postBeepDelay : Int) : List TwiMLInstr :=
  let response : List TwiMLInstr := []
  let response := if postBeepDelay > 0 then response ++ [.pause postBeepDelay] else response
  let response := response ++ [.play audioUrl]
  response ++ [.hangup]

/-- `mapAmdResult` from the webhooks router: identity on the seven known
detection tokens, `"unknown"` otherwise. -/
def mapAmdResult (answeredBy : String) : String :=
  match answeredBy with
  | "human" => "human"
  | "machine_start" => "machine_start"
  | "machine_end_beep" => "machine_end_beep"
  | "machine_end_silence" => "machine_end_silence"
  | "machine_end_other" => "machine_end_other"
  | "fax" => "fax"
  | "unknown" => "unknown"
  | _ => "unknown"

/-- The kind of handle held in the job registry: a cron task for recurring
calls, a timeout for one-shot calls. -/
inductive JobKind where
  | cron
  | timeout
deriving DecidableEq, Repr

/-- The `scheduledJobs` map from `src/services/scheduler.ts`, keyed by
scheduled-call id. -/
abbrev JobRegistry := List (String × JobKind)

/-- `cancelScheduledJob`: stop and remove the handle for an id; a no-op for
an unknown id. -/
def cancelScheduledJob (r : JobRegistry) (callId : String) : JobRegistry :=
  r.filter fun e => e.1 != callId

/-- Number of active registrations held for an id. -/
def countJobs (r : JobRegistry) (callId : String) : Nat :=
  r.countP fun e => e.1 == callId

/-- Combined engine state: durable store plus the in-memory job registry. -/
structure EngineState where
  store : Store := {}
  registry : JobRegistry := []
deriving Repr

/-- `executeScheduledCall` from `src/services/scheduler.ts`: mark the row
in_progress, run `triggerCall`, then either cycle a recurring call back to
pending (with `getNextCronDate`, which returns the current time for a valid
pattern and `null` for an invalid one) or complete a one-shot; any thrown
error is caught at this boundary and the row is marked failed.
`cronValid p` models whether `node-cron` accepts the pattern `p`; `jsonParse`
models `JSON.parse` on the stored options string. -/
def executeScheduledCall (cfg : Config) (provider : Provider) (cronValid : String → Bool)
    (jsonParse : String → TwilioOptionsParse) (s : Store) (call : ScheduledCall)
    (newLogId : String) (now : Int) : Store :=
  let s1 := updateScheduledCall s call.id fun c =>
    { c with status := "in_progress", lastRunAt := some now }
  let out := triggerCall cfg provider s1
    (toCallData call (jsonParse call.twilioOptionsJson)) none newLogId now
  match out.result with
  | Except.ok _ =>
    if call.recurrenceEnabled && jsTruthy call.recurrencePattern then
      let nextRun := if cronValid (call.recurrencePattern.getD "") then some now else none
      updateScheduledCall out.store call.id fun c =>
        { c with status := "pending", nextRunAt := nextRun }
    else
      updateScheduledCall out.store call.id fun c =>
        { c with status := "completed", nextRunAt := none }
  | Except.error _ =>
    updateScheduledCall out.store call.id fun c => { c with status := "failed" }

/-- `scheduleCall` from `src/services/scheduler.ts`: cancel any existing
registration for the id; arm a cron handle for a recurring call (an invalid
pattern throws inside the try and leaves nothing armed); for a one-shot call
compute the delay and either execute immediately (delay ≤ 0) or arm a
timeout.  Only the synchronous effects are modelled: an armed handle firing
later is a separate `executeScheduledCall` step. -/
def scheduleCall (cfg : Config) (provider : Provider) (cronValid : String → Bool)
    (jsonParse : String → TwilioOptionsParse) (st : EngineState) (call : ScheduledCall)
    (newLogId : String) (now : Int) : EngineState :=
  let r1 := cancelScheduledJob st.registry call.id
  if call.recurrenceEnabled && jsTruthy call.recurrencePattern then
    if cronValid (call.recurrencePattern.getD "") then
      { store := st.store, registry := r1 ++ [(call.id, JobKind.cron)] }
    else
      { store := st.store, registry := r1 }
  else
    if call.scheduledAt - now ≤ 0 then
      { store := executeScheduledCall cfg provider cronValid jsonParse st.store call newLogId now
        registry := r1 }
    else
      { store := st.store, registry := r1 ++ [(call.id, JobKind.timeout)] }

/-- The form-encoded body of the provider's status callback. -/
structure StatusBody where
  CallSid : String
  CallStatus : String
  CallDuration : Option String := none
  ErrorCode : Option String := none
  ErrorMessage : Option String := none
deriving DecidableEq, Repr

/-- `CallDuration ? parseInt(CallDuration, 10) : undefined` (numeric strings
assumed, as sent by the provider). -/
def parseCallDuration (b : StatusBody) : Option Nat :=
  match b.CallDuration with
  | some d => if d ≠ "" then some (d.toNat?.getD 0) else none
  | none => none

/-- The `POST /status` webhook: run `updateCallStatus` and answer 200 `OK`
(the catch branch answers 500 only on a store failure, which the model treats
as impossible). -/
def statusWebhookRoute (s : Store) (b : StatusBody) (now : Int) : Store × Nat :=
  (updateCallStatus s b.CallSid b.CallStatus (parseCallDuration b) b.ErrorCode b.ErrorMessage now,
   200)

/-- Result of the TwiML endpoint: the store after any AMD write, the HTTP
status, and the instruction document served (none on 404). -/
structure TwimlResult where
  store : Store
  status : Nat
  document : Option (List TwiMLInstr)
deriving Repr

/-- The `/twiml/:callLogId` endpoint: 404 when the CallLog id is unknown;
otherwise persist a truthy `AnsweredBy` through `mapAmdResult`, then serve
the document built from the recording's audio URL and the scheduled call's
post-beep delay. -/
def twimlRoute (cfg : Config) (s : Store) (callLogId : String)
    (answeredBy : Option String) : TwimlResult :=
  match findCallLogById s callLogId with
  | none => { store := s, status := 404, document := none }
  | some callLog =>
    let s1 :=
      if jsTruthy answeredBy then
        updateCallLog s callLogId fun l =>
          { l with amdResult := some (mapAmdResult (answeredBy.getD "")) }
      else s
    let audioUrl := cfg.appBaseUrl ++ "/api/twilio/audio/" ++ callLog.recordingId
    let postBeepDelay :=
      match callLog.scheduledCallId.bind (findScheduledCall s) with
      | some sc => sc.postBeepDelay
      | none => 0
    { store := s1, status := 200, document := some (generateTwiML audioUrl postBeepDelay) }

/-- The validated body of `POST /scheduled` (after the zod schema). -/
structure CreateScheduledCallInput where
  phoneNumber : String
  contactId : Option String := none
  recordingId : String
  scheduledAt : Int
  recurrencePattern : Option String := none
  recurrenceEnabled : Bool := false
  machineDetection : String := "DetectMessageEnd"
  machineDetectionTimeout : Int := 30
  postBeepDelay : Int := 0
  twilioOptionsJson : String := "{}"
  triggerImmediately : Bool := false
deriving DecidableEq, Repr

/-- The ScheduledCall row created by `POST /scheduled`: status `completed`
only for an immediately-triggered one-shot, `pending` otherwise. -/
def newScheduledCall (input : CreateScheduledCallInput) (newId recFilename : String) :
    ScheduledCall :=
  { id := newId
    phoneNumber := input.phoneNumber
    contactId := input.contactId
    recordingId := input.recordingId
    recordingFilename := recFilename
    machineDetection := input.machineDetection
    machineDetectionTimeout := input.machineDetectionTimeout
    postBeepDelay := input.postBeepDelay
    twilioOptionsJson := input.twilioOptionsJson
    scheduledAt := input.scheduledAt
    nextRunAt := some input.scheduledAt
    recurrencePattern := input.recurrencePattern
    recurrenceEnabled := input.recurrenceEnabled
    status := if input.triggerImmediately && !input.recurrenceEnabled then "completed" else "pending"
    lastRunAt := none }

/-- The `POST /scheduled` creation endpoint: create the row (status
`completed` only for an immediately-triggered one-shot, `pending` otherwise),
optionally trigger at once (a thrown error is caught and answered 500), and
arm the scheduler unless a one-shot was already triggered.  `newId` is the
id Prisma assigns to the new row; `recFilename` the joined recording's
filename; `newLogId`/`newLogId2` the CallLog ids for an immediate trigger
resp. an immediate overdue execution inside `scheduleCall`. -/
def createScheduledCallRoute (cfg : Config) (provider : Provider) (cronValid : String → Bool)
    (jsonParse : String → TwilioOptionsParse) (st : EngineState)
    (input : CreateScheduledCallInput) (newId recFilename newLogId newLogId2 : String)
    (now : Int) : EngineState × Nat :=
  let call := newScheduledCall input newId recFilename
  let s1 : Store := { st.store with scheduledCalls := st.store.scheduledCalls ++ [call] }
  if input.triggerImmediately then
    let out := triggerCall cfg provider s1
      (toCallData call (jsonParse call.twilioOptionsJson)) none newLogId now
    match out.result with
    | Except.error _ => ({ store := out.store, registry := st.registry }, 500)
    | Except.ok _ =>
      let s2 := updateScheduledCall out.store newId fun c => { c with lastRunAt := some now }
      if input.recurrenceEnabled then
        (scheduleCall cfg provider cronValid jsonParse
          { store := s2, registry := st.registry } call newLogId2 now, 201)
      else
        ({ store := s2, registry := st.registry }, 201)
  else
    (scheduleCall cfg provider cronValid jsonParse
      { store := s1, registry := st.registry } call newLogId2 now, 201)

/-- The `POST /scheduled/:id/trigger` endpoint: 404 when the id is unknown;
otherwise cancel the armed job, run `triggerCall` (a thrown error is caught
and answered 500), then complete a one-shot or, for a recurring call, update
`lastRunAt` and re-arm via `scheduleCall` (re-parsing the options string on
the way, whose throw is also caught as 500). -/
def triggerScheduledCallRoute (cfg : Config) (provider : Provider) (cronValid : String → Bool)
    (jsonParse : String → TwilioOptionsParse) (st : EngineState) (id : String)
    (newLogId newLogId2 : String) (now : Int) : EngineState × Nat :=
  match findScheduledCall st.store id with
  | none => (st, 404)
  | some call =>
    let r1 := cancelScheduledJob st.registry call.id
    let out := triggerCall cfg provider st.store
      (toCallData call (jsonParse call.twilioOptionsJson)) none newLogId now
    match out.result with
    | Except.error _ => ({ store := out.store, registry := r1 }, 500)
    | Except.ok _ =>
      if !call.recurrenceEnabled then
        ({ store := updateScheduledCall out.store call.id fun c =>
             { c with status := "completed", lastRunAt := some now }
           registry := r1 }, 200)
      else
        let s2 := updateScheduledCall out.store call.id fun c => { c with lastRunAt := some now }
        match jsonParse call.twilioOptionsJson with
        | .err _ => ({ store := s2, registry := r1 }, 500)
        | .ok _ =>
          (scheduleCall cfg provider cronValid jsonParse
            { store := s2, registry := r1 } call newLogId2 now, 200)

/-- Whether an `Except` result is a success. -/
def resultOk {ε α : Type} : Except ε α → Bool
  | Except.ok _ => true
  | Except.error _ => false

/-- A predicate holding of an optional value when present. -/
def optionHolds {α : Type} (p : α → Bool) : Option α → Bool
  | none => true
  | some o => p o

theorem mem_updateCallLog {s : Store} {id : String} {f : CallLog → CallLog} {c : CallLog}
    (hc : c ∈ (updateCallLog s id f).callLogs) :
    ∃ a ∈ s.callLogs, c = if a.id = id then f a else a := by
  simp only [updateCallLog, List.mem_map] at hc
  obtain ⟨a, ha, h⟩ := hc
  exact ⟨a, ha, h.symm⟩

theorem mem_updateScheduledCall {s : Store} {id : String} {f : ScheduledCall → ScheduledCall}
    {c : ScheduledCall} (hc : c ∈ (updateScheduledCall s id f).scheduledCalls) :
    ∃ a ∈ s.scheduledCalls, c = if a.id = id then f a else a := by
  simp only [updateScheduledCall, List.mem_map] at hc
  obtain ⟨a, ha, h⟩ := hc
  exact ⟨a, ha, h.symm⟩

theorem updateCallLog_append_fresh (s : Store) (log : CallLog) (f : CallLog → CallLog)
    (hfresh : ∀ l ∈ s.callLogs, l.id ≠ log.id) :
    (updateCallLog { s with callLogs := s.callLogs ++ [log] } log.id f).callLogs
      = s.callLogs ++ [f log] := by
  simp only [updateCallLog, List.map_append]
  congr 1
  · conv_rhs => rw [← List.map_id s.callLogs]
    exact List.map_congr_left fun l hl => by simp [hfresh l hl]
  · simp

theorem statuses_updateScheduledCall (s : Store) (id : String)
    (f : ScheduledCall → ScheduledCall) (hf : ∀ c, (f c).status = c.status) :
    (updateScheduledCall s id f).scheduledCalls.map (fun c => c.status)
      = s.scheduledCalls.map (fun c => c.status) := by
  simp only [updateScheduledCall, List.map_map]
  exact List.map_congr_left fun c _ => by
    by_cases h : c.id = id <;> simp [h, hf]

theorem triggerCall_scheduledCalls (cfg : Config) (provider : Provider) (s : Store)
    (callData : ScheduledCallData) (retryOf : Option String) (newLogId : String) (now : Int) :
    (triggerCall cfg provider s callData retryOf newLogId now).store.scheduledCalls
      = s.scheduledCalls := by
  unfold triggerCall
  split
  · rfl
  · split <;> simp [updateCallLog]

/-- C9: the instruction-document builder is a pure function of `audioUrl`
and `postBeepDelay`: a positive delay yields pause-play-hangup with exactly
that pause length, otherwise play-hangup; the builder takes no detection
input at all. -/
theorem generateTwiML_document (audioUrl : String) (d : Int) :
    (0 < d → generateTwiML audioUrl d = [.pause d, .play audioUrl, .hangup]) ∧
    (d ≤ 0 → generateTwiML audioUrl d = [.play audioUrl, .hangup]) := by
  constructor
  · intro h
    simp [generateTwiML, h]
  · intro h
    simp [generateTwiML, show ¬ d > 0 from not_lt.mpr h]

/-- Witness for C9 at delay 2 and delay 0. -/
theorem generateTwiML_document_witness :
    ((0 : Int) < 2 ∧ generateTwiML "http://a/x.wav" 2
       = [.pause 2, .play "http://a/x.wav", .hangup]) ∧
    ((0 : Int) ≤ 0 ∧ generateTwiML "http://a/x.wav" 0
       = [.play "http://a/x.wav", .hangup]) :=
  ⟨⟨by decide, (generateTwiML_document "http://a/x.wav" 2).1 (by decide)⟩,
   ⟨by decide, (generateTwiML_document "http://a/x.wav" 0).2 (by decide)⟩⟩

theorem validateBaseUrl_invalid (cfg : Config)
    (h : cfg.appBaseUrl = "" ∨
         strIncludes (strLower cfg.appBaseUrl) "localhost" = true ∨
         strIncludes (strLower cfg.appBaseUrl) "127.0.0.1" = true ∨
         strIncludes (strLower cfg.appBaseUrl) "0.0.0.0" = true) :
    (validateBaseUrl cfg).valid = false ∧ ∃ e, (validateBaseUrl cfg).error = some e := by
  unfold validateBaseUrl
  by_cases h0 : cfg.appBaseUrl = ""
  · simp [h0]
  · rcases h with h | h | h | h
    · exact absurd h h0
    all_goals simp [h0, h]

/-- C2: with an unset or loopback-containing base URL, `triggerCall` leaves
the store untouched (zero CallLog rows created), never contacts the
provider, and throws the configuration error produced by
`validateBaseUrl`. -/
theorem triggerCall_invalid_base_url_no_log (cfg : Config) (provider : Provider) (s : Store)
    (callData : ScheduledCallData) (retryOf : Option String) (newLogId : String) (now : Int)
    (h : cfg.appBaseUrl = "" ∨
         strIncludes (strLower cfg.appBaseUrl) "localhost" = true ∨
         strIncludes (strLower cfg.appBaseUrl) "127.0.0.1" = true ∨
         strIncludes (strLower cfg.appBaseUrl) "0.0.0.0" = true) :
    (triggerCall cfg provider s callData retryOf newLogId now).store = s ∧
    (triggerCall cfg provider s callData retryOf newLogId now).providerCalled = none ∧
    ∃ e, (validateBaseUrl cfg).error = some e ∧
      (triggerCall cfg provider s callData retryOf newLogId now).result = Except.error e := by
  obtain ⟨hv, e, he⟩ := validateBaseUrl_invalid cfg h
  refine ⟨?_, ?_, e, he, ?_⟩ <;> simp [triggerCall, hv, he]

/-- Shared concrete fixtures for witnesses and counterexamples. -/
def cfgGood : Config :=
  { twilioAccountSid := "AC1", twilioAuthToken := "tok"
    twilioPhoneNumber := "+15550001111", appBaseUrl := "https://example.com" }

/-- A configuration whose base URL points at localhost. -/
def cfgLocalhost : Config := { cfgGood with appBaseUrl := "http://localhost:3000" }

/-- A provider that accepts the call and returns a SID. -/
def providerOk : Provider := fun _ => Except.ok "CA123"

/-- A provider that rejects the call. -/
def providerDown : Provider := fun _ => Except.error "Unable to create record"

/-- Sample ad-hoc call data. -/
def cdSample : ScheduledCallData := { phoneNumber := "+15552223333", recordingId := "rec1" }

/-- Witness for C2: a localhost base URL at a concrete input. -/
theorem triggerCall_invalid_base_url_no_log_witness :
    (triggerCall cfgLocalhost providerOk {} cdSample none "cl1" 0).store = {} ∧
    (triggerCall cfgLocalhost providerOk {} cdSample none "cl1" 0).providerCalled = none ∧
    ∃ e, (validateBaseUrl cfgLocalhost).error = some e ∧
      (triggerCall cfgLocalhost providerOk {} cdSample none "cl1" 0).result = Except.error e :=
  triggerCall_invalid_base_url_no_log cfgLocalhost providerOk {} cdSample none "cl1" 0
    (by right; left; decide)

/-- C7: a status event whose CallSid matches no stored CallLog changes no
state and returns normally (the model function is total, mirroring the
early `return` after the warning log), and the status webhook still answers
200 to the provider. -/
theorem unknown_callsid_logged_and_dropped (s : Store) (b : StatusBody) (now : Int)
    (h : findCallLogBySid s b.CallSid = none) :
    (∀ (status : String) (duration : Option Nat) (errorCode errorMessage : Option String)
        (t : Int), updateCallStatus s b.CallSid status duration errorCode errorMessage t = s) ∧
    statusWebhookRoute s b now = (s, 200) := by
  have hu : ∀ (status : String) (duration : Option Nat) (errorCode errorMessage : Option String)
      (t : Int), updateCallStatus s b.CallSid status duration errorCode errorMessage t = s := by
    intro status duration errorCode errorMessage t
    simp [updateCallStatus, h]
  exact ⟨hu, by simp [statusWebhookRoute, hu]⟩

/-- Witness for C7: a store holding one log with a different SID. -/
theorem unknown_callsid_logged_and_dropped_witness :
    (findCallLogBySid
        { callLogs := [{ id := "cl1", phoneNumber := "+15552223333", recordingId := "rec1",
                         status := "initiated", twilioCallSid := some "CA9" }] }
        (StatusBody.mk "CAunknown" "completed" none none none).CallSid = none) ∧
    statusWebhookRoute
        { callLogs := [{ id := "cl1", phoneNumber := "+15552223333", recordingId := "rec1",
                         status := "initiated", twilioCallSid := some "CA9" }] }
        (StatusBody.mk "CAunknown" "completed" none none none) 7
      = ({ callLogs := [{ id := "cl1", phoneNumber := "+15552223333", recordingId := "rec1",
                          status := "initiated", twilioCallSid := some "CA9" }] }, 200) :=
  ⟨by decide,
   (unknown_callsid_logged_and_dropped _ _ 7 (by decide)).2⟩

/-- C10: an instruction-fetch (TwiML) request for an unknown CallLog id is
answered 404 with no document and leaves the store unchanged, while a status
event for an unknown SID is answered 200 — an error response versus a
success response. -/
theorem twiml_unknown_id_404 (cfg : Config) (s : Store) (callLogId : String)
    (answeredBy : Option String) (b : StatusBody) (now : Int)
    (h1 : findCallLogById s callLogId = none)
    (h2 : findCallLogBySid s b.CallSid = none) :
    (twimlRoute cfg s callLogId answeredBy).status = 404 ∧
    (twimlRoute cfg s callLogId answeredBy).document = none ∧
    (twimlRoute cfg s callLogId answeredBy).store = s ∧
    statusWebhookRoute s b now = (s, 200) := by
  refine ⟨?_, ?_, ?_, ?_⟩
  · simp [twimlRoute, h1]
  · simp [twimlRoute, h1]
  · simp [twimlRoute, h1]
  · simp [statusWebhookRoute, updateCallStatus, h2]

/-- Witness for C10: one stored log, a TwiML request for a different id. -/
theorem twiml_unknown_id_404_witness :
    (twimlRoute cfgGood
        { callLogs := [{ id := "cl1", phoneNumber := "+15552223333", recordingId := "rec1",
                         status := "initiated", twilioCallSid := some "CA9" }] }
        "clMissing" (some "machine_end_beep")).status = 404 ∧
    (twimlRoute cfgGood
        { callLogs := [{ id := "cl1", phoneNumber := "+15552223333", recordingId := "rec1",
                         status := "initiated", twilioCallSid := some "CA9" }] }
        "clMissing" (some "machine_end_beep")).document = none ∧
    (twimlRoute cfgGood
        { callLogs := [{ id := "cl1", phoneNumber := "+15552223333", recordingId := "rec1",
                         status := "initiated", twilioCallSid := some "CA9" }] }
        "clMissing" (some "machine_end_beep")).store
      = { callLogs := [{ id := "cl1", phoneNumber := "+15552223333", recordingId := "rec1",
                         status := "initiated", twilioCallSid := some "CA9" }] } ∧
    statusWebhookRoute
        { callLogs := [{ id := "cl1", phoneNumber := "+15552223333", recordingId := "rec1",
                         status := "initiated", twilioCallSid := some "CA9" }] }
        (StatusBody.mk "CAunknown" "busy" none none none) 3
      = ({ callLogs := [{ id := "cl1", phoneNumber := "+15552223333", recordingId := "rec1",
                          status := "initiated", twilioCallSid := some "CA9" }] }, 200) :=
  twiml_unknown_id_404 cfgGood _ "clMissing" (some "machine_end_beep")
    (StatusBody.mk "CAunknown" "busy" none none none) 3 (by decide) (by decide)

/-- A stored ringing call attempt with a known SID. -/
def logRinging : CallLog :=
  { id := "cl1", phoneNumber := "+15552223333", recordingId := "rec1",
    status := "ringing", twilioCallSid := some "CA9" }

/-- Counterexample to C4: a terminal `completed` event carrying the present
duration `0` does not record it — `if (duration)` treats `0` as absent, so
the stored duration stays `none` although a duration was present. -/
theorem zero_duration_not_recorded_counterexample :
    (some 0 : Option Nat).isSome = true ∧
    (updateCallStatus { callLogs := [logRinging] } "CA9" "completed"
        (some 0) none none 55).callLogs.map (fun l => l.duration) = [none] ∧
    (updateCallStatus { callLogs := [logRinging] } "CA9" "completed"
        (some 0) none none 55).callLogs.map (fun l => l.status) = ["completed"] := by
  refine ⟨by decide, by decide, by decide⟩

theorem applyStatusUpdate_endedAt_terminal (callLog : CallLog) (status : String)
    (duration : Option Nat) (errorCode errorMessage : Option String) (now : Int)
    (hterm : status = "completed" ∨ status = "failed" ∨ status = "busy" ∨
             status = "no-answer" ∨ status = "canceled") :
    (applyStatusUpdate callLog status duration errorCode errorMessage now).endedAt
      = some now := by
  rcases hterm with rfl | rfl | rfl | rfl | rfl <;>
  · unfold applyStatusUpdate
    rcases duration with _ | d <;> rcases errorCode with _ | ec <;>
      rcases errorMessage with _ | em <;> simp <;> split_ifs <;> simp

theorem applyStatusUpdate_status_terminal (callLog : CallLog) (status : String)
    (duration : Option Nat) (errorCode errorMessage : Option String) (now : Int)
    (hterm : status = "completed" ∨ status = "failed" ∨ status = "busy" ∨
             status = "no-answer" ∨ status = "canceled") :
    (applyStatusUpdate callLog status duration errorCode errorMessage now).status
      = replaceFirst status "-" "_" := by
  rcases hterm with rfl | rfl | rfl | rfl | rfl <;>
  · unfold applyStatusUpdate
    rcases duration with _ | d <;> rcases errorCode with _ | ec <;>
      rcases errorMessage with _ | em <;> simp <;> split_ifs <;> simp

theorem applyStatusUpdate_duration_terminal (callLog : CallLog) (status : String)
    (d : Nat) (errorCode errorMessage : Option String) (now : Int)
    (hterm : status = "completed" ∨ status = "failed" ∨ status = "busy" ∨
             status = "no-answer" ∨ status = "canceled") (hd : d ≠ 0) :
    (applyStatusUpdate callLog status (some d) errorCode errorMessage now).duration
      = some d := by
  rcases hterm with rfl | rfl | rfl | rfl | rfl <;>
  · unfold applyStatusUpdate
    rcases errorCode with _ | ec <;> rcases errorMessage with _ | em <;>
      simp [hd] <;> split_ifs <;> simp

theorem applyStatusUpdate_duration_zero (callLog : CallLog) (status : String)
    (errorCode errorMessage : Option String) (now : Int)
    (hterm : status = "completed" ∨ status = "failed" ∨ status = "busy" ∨
             status = "no-answer" ∨ status = "canceled") :
    (applyStatusUpdate callLog status (some 0) errorCode errorMessage now).duration
      = callLog.duration := by
  rcases hterm with rfl | rfl | rfl | rfl | rfl <;>
  · unfold applyStatusUpdate
    rcases errorCode with _ | ec <;> rcases errorMessage with _ | em <;>
      simp <;> split_ifs <;> simp

/-- C4 amended: on a terminal status token the matched CallLog gets
`endedAt`, the hyphen-normalized status, and — whenever a *nonzero* duration
is present — that duration; a present duration of `0` is JS-falsy and leaves
the stored duration unchanged. -/
theorem terminal_status_update_amended (s : Store) (sid status : String)
    (duration : Option Nat) (errorCode errorMessage : Option String) (now : Int)
    (l : CallLog)
    (hterm : status = "completed" ∨ status = "failed" ∨ status = "busy" ∨
             status = "no-answer" ∨ status = "canceled")
    (hfound : findCallLogBySid s sid = some l) :
    ∀ c ∈ (updateCallStatus s sid status duration errorCode errorMessage now).callLogs,
      c.id = l.id →
        c.endedAt = some now ∧
        c.status = replaceFirst status "-" "_" ∧
        (∀ d, duration = some d → d ≠ 0 → c.duration = some d) ∧
        (duration = some 0 → c.duration = l.duration) := by
  intro c hc hcid
  unfold updateCallStatus at hc
  rw [hfound] at hc
  obtain ⟨a, ha, hceq⟩ := mem_updateCallLog hc
  by_cases hid : a.id = l.id
  · rw [if_pos hid] at hceq
    subst hceq
    clear hc ha hcid hid hfound
    refine ⟨applyStatusUpdate_endedAt_terminal _ _ _ _ _ _ hterm,
            applyStatusUpdate_status_terminal _ _ _ _ _ _ hterm, ?_, ?_⟩
    · intro d hd hd0
      subst hd
      exact applyStatusUpdate_duration_terminal _ _ d _ _ _ hterm hd0
    · intro hd
      subst hd
      exact applyStatusUpdate_duration_zero _ _ _ _ _ hterm
  · rw [if_neg hid] at hceq
    subst hceq
    exact absurd hcid hid

/-- Witness for C4 amended: `no-answer` with duration 42 at a concrete
store; the normalized token is `no_answer`. -/
theorem terminal_status_update_amended_witness :
    (findCallLogBySid { callLogs := [logRinging] } "CA9" = some logRinging) ∧
    replaceFirst "no-answer" "-" "_" = "no_answer" ∧
    ∀ c ∈ (updateCallStatus { callLogs := [logRinging] } "CA9" "no-answer"
        (some 42) none none 55).callLogs,
      c.id = logRinging.id →
        c.endedAt = some 55 ∧
        c.status = replaceFirst "no-answer" "-" "_" ∧
        (∀ d, (some 42 : Option Nat) = some d → d ≠ 0 → c.duration = some d) ∧
        ((some 42 : Option Nat) = some 0 → c.duration = logRinging.duration) :=
  ⟨by decide, by decide,
   terminal_status_update_amended { callLogs := [logRinging] } "CA9" "no-answer"
     (some 42) none none 55 logRinging
     (Or.inr (Or.inr (Or.inr (Or.inl rfl)))) (by decide)⟩

/-- C1: with a valid base URL, `triggerCall` appends exactly one CallLog row
(id `newLogId`, created with status `initiated` before the provider is
contacted); on success that row keeps status `initiated` and receives the
SID; if the attempt throws — in particular when the provider call throws —
the same row ends `failed` with a non-null error message and the error is
re-raised as the result. -/
theorem triggerCall_creates_initiated_log (cfg : Config) (provider : Provider) (s : Store)
    (callData : ScheduledCallData) (retryOf : Option String) (newLogId : String) (now : Int)
    (hvalid : (validateBaseUrl cfg).valid = true)
    (hfresh : ∀ l ∈ s.callLogs, l.id ≠ newLogId) :
    ∃ log : CallLog,
      (triggerCall cfg provider s callData retryOf newLogId now).store.callLogs
        = s.callLogs ++ [log] ∧
      log.id = newLogId ∧
      (∀ lid sid, (triggerCall cfg provider s callData retryOf newLogId now).result
          = Except.ok (lid, sid) →
        lid = newLogId ∧ log.status = "initiated" ∧ log.twilioCallSid = some sid) ∧
      (∀ m, (triggerCall cfg provider s callData retryOf newLogId now).result
          = Except.error m →
        log.status = "failed" ∧ log.errorMessage = some m ∧ log.endedAt = some now) := by
  have hv : ¬ ((validateBaseUrl cfg).valid = false) := by simp [hvalid]
  unfold triggerCall
  rw [if_neg hv]
  rcases hA : triggerCallAttempt cfg provider callData newLogId with ⟨res, pc⟩
  rcases res with m | ⟨opts, sid⟩
  · refine ⟨_, updateCallLog_append_fresh s _ _ hfresh, rfl, ?_, ?_⟩
    · intro lid sid' h
      simp at h
    · intro m' h
      simp only [Except.error.injEq] at h
      subst h
      exact ⟨rfl, rfl, rfl⟩
  · refine ⟨_, updateCallLog_append_fresh s _ _ hfresh, rfl, ?_, ?_⟩
    · intro lid sid' h
      simp only [Except.ok.injEq, Prod.mk.injEq] at h
      obtain ⟨h1, h2⟩ := h
      subst h1; subst h2
      exact ⟨rfl, rfl, rfl⟩
    · intro m h
      simp at h

/-- Witness for C1: a failing provider at a valid configuration; the single
created row ends failed with the provider's message. -/
theorem triggerCall_creates_initiated_log_witness :
    ∃ log : CallLog,
      (triggerCall cfgGood providerDown {} cdSample none "cl1" 9).store.callLogs
        = [] ++ [log] ∧
      log.id = "cl1" ∧
      (∀ lid sid, (triggerCall cfgGood providerDown {} cdSample none "cl1" 9).result
          = Except.ok (lid, sid) →
        lid = "cl1" ∧ log.status = "initiated" ∧ log.twilioCallSid = some sid) ∧
      (∀ m, (triggerCall cfgGood providerDown {} cdSample none "cl1" 9).result
          = Except.error m →
        log.status = "failed" ∧ log.errorMessage = some m ∧ log.endedAt = some 9) :=
  triggerCall_creates_initiated_log cfgGood providerDown {} cdSample none "cl1" 9
    (by decide) (by decide)

/-- A valid base URL but no outbound phone number configured. -/
def cfgNoPhone : Config := { cfgGood with twilioPhoneNumber := "" }

/-- Counterexample to C6: with a valid base URL and the outbound number
unset, `triggerCall` does fail — but only *after* creating a CallLog row,
which it then marks failed; the store is not left unchanged. -/
theorem missing_phone_creates_log_counterexample :
    (validateBaseUrl cfgNoPhone).valid = true ∧
    cfgNoPhone.twilioPhoneNumber = "" ∧
    (triggerCall cfgNoPhone providerOk {} cdSample none "cl1" 9).store.callLogs.length = 1 ∧
    (triggerCall cfgNoPhone providerOk {} cdSample none "cl1" 9).result
      = Except.error "Twilio phone number not configured. Complete setup first." := by
  exact ⟨by decide, by decide, by decide, rfl⟩

theorem triggerCallAttempt_missing_config (cfg : Config) (provider : Provider)
    (callData : ScheduledCallData) (newLogId : String)
    (hmiss : cfg.twilioPhoneNumber = "" ∨ cfg.twilioAccountSid = "" ∨ cfg.twilioAuthToken = "") :
    ∃ m, triggerCallAttempt cfg provider callData newLogId = (Except.error m, none) := by
  unfold triggerCallAttempt
  by_cases hp : cfg.twilioPhoneNumber = ""
  · exact ⟨"Twilio phone number not configured. Complete setup first.", by simp [hp]⟩
  · have hcred : cfg.twilioAccountSid = "" ∨ cfg.twilioAuthToken = "" := by
      rcases hmiss with h | h | h
      · exact absurd h hp
      · exact Or.inl h
      · exact Or.inr h
    rw [if_neg hp]
    rcases hopt : callData.twilioOptions with o | m
    · refine ⟨"Twilio credentials not configured. Complete setup first.", ?_⟩
      rcases hcred with h | h <;> simp [h]
    · exact ⟨m, rfl⟩

/-- C6 amended: when the base URL is valid but the outbound number or the
credentials are unset, `triggerCall` throws without ever invoking the
provider, but only after appending one CallLog row, which ends `failed`
with a non-null error message — the configuration failure is not
side-effect-free. -/
theorem missing_credentials_failed_log_amended (cfg : Config) (provider : Provider)
    (s : Store) (callData : ScheduledCallData) (retryOf : Option String)
    (newLogId : String) (now : Int)
    (hvalid : (validateBaseUrl cfg).valid = true)
    (hmiss : cfg.twilioPhoneNumber = "" ∨ cfg.twilioAccountSid = "" ∨ cfg.twilioAuthToken = "")
    (hfresh : ∀ l ∈ s.callLogs, l.id ≠ newLogId) :
    (triggerCall cfg provider s callData retryOf newLogId now).providerCalled = none ∧
    (∃ m, (triggerCall cfg provider s callData retryOf newLogId now).result
      = Except.error m) ∧
    ∃ log, (triggerCall cfg provider s callData retryOf newLogId now).store.callLogs
        = s.callLogs ++ [log] ∧
      log.status = "failed" ∧ log.errorMessage.isSome = true := by
  obtain ⟨m, hA⟩ := triggerCallAttempt_missing_config cfg provider callData newLogId hmiss
  have hv : ¬ ((validateBaseUrl cfg).valid = false) := by simp [hvalid]
  unfold triggerCall
  rw [if_neg hv, hA]
  exact ⟨rfl, ⟨m, rfl⟩, _, updateCallLog_append_fresh s _ _ hfresh, rfl, rfl⟩

/-- Witness for C6 amended at the missing-phone configuration. -/
theorem missing_credentials_failed_log_amended_witness :
    (triggerCall cfgNoPhone providerOk {} cdSample none "cl2" 9).providerCalled = none ∧
    (∃ m, (triggerCall cfgNoPhone providerOk {} cdSample none "cl2" 9).result
      = Except.error m) ∧
    ∃ log, (triggerCall cfgNoPhone providerOk {} cdSample none "cl2" 9).store.callLogs
        = [] ++ [log] ∧
      log.status = "failed" ∧ log.errorMessage.isSome = true :=
  missing_credentials_failed_log_amended cfgNoPhone providerOk {} cdSample none "cl2" 9
    (by decide) (Or.inl (by decide)) (by decide)

/-- Synchronous-detection shape of provider options: detection keys present,
all async-AMD keys absent. -/
def syncAmdOpts (o : CallOptions) : Bool :=
  o.machineDetection.isSome && o.machineDetectionTimeout.isSome &&
  o.asyncAmd.isNone && o.asyncAmdStatusCallback.isNone &&
  o.asyncAmdStatusCallbackMethod.isNone

theorem buildCallOptions_detection (cfg : Config) (callData : ScheduledCallData)
    (newLogId : String) (hDet : callData.machineDetection ≠ "Disabled") :
    (buildCallOptions cfg callData newLogId).machineDetection
        = some callData.machineDetection ∧
    (buildCallOptions cfg callData newLogId).machineDetectionTimeout
        = some callData.machineDetectionTimeout := by
  unfold buildCallOptions
  simp [hDet]

theorem syncAmdOpts_final (cfg : Config) (callData : ScheduledCallData) (newLogId : String)
    (addl : TwilioOverrides) (hDet : callData.machineDetection ≠ "Disabled") :
    syncAmdOpts (finalCallOptions cfg callData newLogId addl) = true := by
  obtain ⟨hmd, hmt⟩ := buildCallOptions_detection cfg callData newLogId hDet
  unfold finalCallOptions
  cases h1 : addl.machineDetection <;> cases h2 : addl.machineDetectionTimeout <;>
    simp_all [syncAmdOpts, assignOverrides]

theorem triggerCallAttempt_providerCalled_shape (cfg : Config) (provider : Provider)
    (callData : ScheduledCallData) (newLogId : String) :
    (triggerCallAttempt cfg provider callData newLogId).2 = none ∨
    ∃ addl, (triggerCallAttempt cfg provider callData newLogId).2
      = some (finalCallOptions cfg callData newLogId addl) := by
  unfold triggerCallAttempt
  split
  · left; rfl
  · split
    · left; rfl
    · split
      · left; rfl
      · split
        · right; exact ⟨_, rfl⟩
        · right; exact ⟨_, rfl⟩

theorem triggerCallAttempt_sync_amd (cfg : Config) (provider : Provider)
    (callData : ScheduledCallData) (newLogId : String)
    (hDet : callData.machineDetection ≠ "Disabled") :
    optionHolds syncAmdOpts (triggerCallAttempt cfg provider callData newLogId).2 = true := by
  rcases triggerCallAttempt_providerCalled_shape cfg provider callData newLogId
    with h | ⟨addl, h⟩
  · rw [h]; rfl
  · rw [h]
    simpa [optionHolds] using syncAmdOpts_final cfg callData newLogId addl hDet

/-- C5: whenever detection is not disabled and the provider's call-creation
operation is actually invoked, the options handed to it request synchronous
detection: `machineDetection` and `machineDetectionTimeout` are present and
none of the async-AMD keys survive — even when the `twilioOptions` override
blob sets them. -/
theorem triggerCall_sync_amd (cfg : Config) (provider : Provider) (s : Store)
    (callData : ScheduledCallData) (retryOf : Option String) (newLogId : String) (now : Int)
    (hDet : callData.machineDetection ≠ "Disabled") :
    optionHolds syncAmdOpts
      (triggerCall cfg provider s callData retryOf newLogId now).providerCalled = true := by
  have h := triggerCallAttempt_sync_amd cfg provider callData newLogId hDet
  unfold triggerCall
  split
  · simp [optionHolds]
  · rcases hA : triggerCallAttempt cfg provider callData newLogId with ⟨res, pc⟩
    rw [hA] at h
    rcases res with m | p <;> simpa using h

/-- Call data whose override blob tries to switch async detection on. -/
def cdAsyncOverride : ScheduledCallData :=
  { phoneNumber := "+15552223333", recordingId := "rec1", machineDetection := "Enable",
    twilioOptions := .ok { asyncAmd := some "true",
                           asyncAmdStatusCallback := some "https://cb.example.com",
                           asyncAmdStatusCallbackMethod := some "POST" } }

/-- Witness for C5: the provider is reached and still sees synchronous
detection options despite the async override keys. -/
theorem triggerCall_sync_amd_witness :
    cdAsyncOverride.machineDetection ≠ "Disabled" ∧
    (triggerCall cfgGood providerOk {} cdAsyncOverride none "cl3" 0).providerCalled.isSome
      = true ∧
    optionHolds syncAmdOpts
      (triggerCall cfgGood providerOk {} cdAsyncOverride none "cl3" 0).providerCalled = true :=
  ⟨by decide, by decide,
   triggerCall_sync_amd cfgGood providerOk {} cdAsyncOverride none "cl3" 0 (by decide)⟩

theorem countJobs_cancel (r : JobRegistry) (id : String) :
    countJobs (cancelScheduledJob r id) id = 0 := by
  simp only [countJobs, cancelScheduledJob]
  rw [List.countP_eq_zero]
  intro a ha
  rw [List.mem_filter] at ha
  simp_all

theorem countJobs_append_self (r : JobRegistry) (id : String) (k : JobKind) :
    countJobs (r ++ [(id, k)]) id = countJobs r id + 1 := by
  simp [countJobs, List.countP_append]

theorem countJobs_scheduleCall (cfg : Config) (provider : Provider)
    (cronValid : String → Bool) (jsonParse : String → TwilioOptionsParse)
    (st : EngineState) (call : ScheduledCall) (newLogId : String) (now : Int) :
    countJobs (scheduleCall cfg provider cronValid jsonParse st call newLogId now).registry
        call.id
      = if call.recurrenceEnabled && jsTruthy call.recurrencePattern then
          (if cronValid (call.recurrencePattern.getD "") then 1 else 0)
        else if call.scheduledAt - now ≤ 0 then 0 else 1 := by
  unfold scheduleCall
  cases hb1 : call.recurrenceEnabled && jsTruthy call.recurrencePattern
  · by_cases hd : call.scheduledAt - now ≤ 0
    · simp [hd, countJobs_cancel]
    · simp [hd, countJobs_append_self, countJobs_cancel]
  · cases hb2 : cronValid (call.recurrencePattern.getD "")
    · simp [countJobs_cancel]
    · simp [countJobs_append_self, countJobs_cancel]

/-- A one-shot call whose scheduled time has already passed at `now = 10`. -/
def oneShotOverdue : ScheduledCall :=
  { id := "sc1", phoneNumber := "+15552223333", recordingId := "rec1", scheduledAt := 0 }

/-- Counterexample to C8: scheduling an overdue one-shot call twice executes
it immediately both times and leaves *zero* active registrations for its id,
not exactly one. -/
theorem overdue_oneshot_no_registration_counterexample :
    oneShotOverdue.recurrenceEnabled = false ∧
    oneShotOverdue.scheduledAt ≤ 10 ∧
    countJobs (scheduleCall cfgGood providerOk (fun _ => true) (fun _ => .ok {})
        (scheduleCall cfgGood providerOk (fun _ => true) (fun _ => .ok {})
          { store := { scheduledCalls := [oneShotOverdue] } } oneShotOverdue "lg1" 10)
        oneShotOverdue "lg2" 10).registry oneShotOverdue.id = 0 := by
  exact ⟨rfl, by decide, by rfl⟩

/-- C8 amended: `scheduleCall` twice for the same id leaves *at most* one
active registration — exactly one whenever the second call arms a handle
(recurring with a pattern the cron library accepts, or a one-shot still in
the future), and zero when the overdue one-shot executes immediately or the
cron arming throws. -/
theorem scheduleCall_idempotent_replace_amended (cfg : Config) (provider : Provider)
    (cronValid : String → Bool) (jsonParse : String → TwilioOptionsParse)
    (st : EngineState) (call : ScheduledCall) (lid1 lid2 : String) (now : Int) :
    countJobs (scheduleCall cfg provider cronValid jsonParse
        (scheduleCall cfg provider cronValid jsonParse st call lid1 now)
        call lid2 now).registry call.id ≤ 1 ∧
    ((call.recurrenceEnabled && jsTruthy call.recurrencePattern) = true →
      cronValid (call.recurrencePattern.getD "") = true →
      countJobs (scheduleCall cfg provider cronValid jsonParse
        (scheduleCall cfg provider cronValid jsonParse st call lid1 now)
        call lid2 now).registry call.id = 1) ∧
    ((call.recurrenceEnabled && jsTruthy call.recurrencePattern) = false →
      now < call.scheduledAt →
      countJobs (scheduleCall cfg provider cronValid jsonParse
        (scheduleCall cfg provider cronValid jsonParse st call lid1 now)
        call lid2 now).registry call.id = 1) ∧
    ((call.recurrenceEnabled && jsTruthy call.recurrencePattern) = false →
      call.scheduledAt ≤ now →
      countJobs (scheduleCall cfg provider cronValid jsonParse
        (scheduleCall cfg provider cronValid jsonParse st call lid1 now)
        call lid2 now).registry call.id = 0) := by
  have h := countJobs_scheduleCall cfg provider cronValid jsonParse
    (scheduleCall cfg provider cronValid jsonParse st call lid1 now) call lid2 now
  refine ⟨?_, ?_, ?_, ?_⟩
  · rw [h]; split_ifs <;> omega
  · intro h1 h2
    rw [h, if_pos h1, if_pos h2]
  · intro h1 h2
    rw [h, if_neg (by simp [h1]), if_neg (by omega)]
  · intro h1 h2
    rw [h, if_neg (by simp [h1]), if_pos (by omega)]

/-- A one-shot call still in the future at `now = 10`. -/
def oneShotFuture : ScheduledCall :=
  { id := "sc2", phoneNumber := "+15552223333", recordingId := "rec1", scheduledAt := 100 }

/-- Witness for C8 amended: a future one-shot scheduled twice holds exactly
one registration. -/
theorem scheduleCall_idempotent_replace_amended_witness :
    ((oneShotFuture.recurrenceEnabled && jsTruthy oneShotFuture.recurrencePattern) = false) ∧
    (10 : Int) < oneShotFuture.scheduledAt ∧
    countJobs (scheduleCall cfgGood providerOk (fun _ => true) (fun _ => .ok {})
        (scheduleCall cfgGood providerOk (fun _ => true) (fun _ => .ok {})
          { store := { scheduledCalls := [oneShotFuture] } } oneShotFuture "lg1" 10)
        oneShotFuture "lg2" 10).registry oneShotFuture.id = 1 :=
  ⟨by decide, by decide,
   (scheduleCall_idempotent_replace_amended cfgGood providerOk (fun _ => true)
      (fun _ => .ok {}) { store := { scheduledCalls := [oneShotFuture] } }
      oneShotFuture "lg1" "lg2" 10).2.2.1 (by decide) (by decide)⟩

/-- A call flagged recurring but carrying no recurrence pattern. -/
def recurringNoPattern : ScheduledCall :=
  { id := "sc3", phoneNumber := "+15552223333", recordingId := "rec1", scheduledAt := 0,
    recurrenceEnabled := true, recurrencePattern := none }

/-- Counterexample to C3: a ScheduledCall with `recurrenceEnabled = true`
but no pattern is treated as one-shot by `executeScheduledCall`
(`recurrenceEnabled && recurrencePattern` is falsy), so a successful firing
sets its status to `completed`. -/
theorem recurring_completed_counterexample :
    recurringNoPattern.recurrenceEnabled = true ∧
    (executeScheduledCall cfgGood providerOk (fun _ => true) (fun _ => .ok {})
        { scheduledCalls := [recurringNoPattern] } recurringNoPattern
        "log1" 100).scheduledCalls.map (fun c => c.status) = ["completed"] := by
  exact ⟨rfl, by rfl⟩

theorem updateScheduledCall_row_status (s : Store) (id : String)
    (f : ScheduledCall → ScheduledCall) (v : String)
    (hf : ∀ c, (f c).status = v) (_hid : ∀ c, (f c).id = c.id) :
    ∀ c ∈ (updateScheduledCall s id f).scheduledCalls, c.id = id → c.status = v := by
  intro c hc hcid
  obtain ⟨a, ha, hceq⟩ := mem_updateScheduledCall hc
  by_cases hid2 : a.id = id
  · rw [if_pos hid2] at hceq
    subst hceq
    exact hf a
  · rw [if_neg hid2] at hceq
    subst hceq
    exact absurd hcid hid2

theorem scheduleCall_store_recurring (cfg : Config) (provider : Provider)
    (cronValid : String → Bool) (jsonParse : String → TwilioOptionsParse)
    (st : EngineState) (call : ScheduledCall) (lid : String) (now : Int)
    (h : (call.recurrenceEnabled && jsTruthy call.recurrencePattern) = true) :
    (scheduleCall cfg provider cronValid jsonParse st call lid now).store = st.store := by
  simp only [scheduleCall]
  rw [if_pos h]
  split <;> rfl

theorem executeScheduledCall_recurring_status (cfg : Config) (provider : Provider)
    (cronValid : String → Bool) (jsonParse : String → TwilioOptionsParse)
    (s : Store) (call : ScheduledCall) (lid : String) (now : Int)
    (h : (call.recurrenceEnabled && jsTruthy call.recurrencePattern) = true) :
    (∀ c ∈ (executeScheduledCall cfg provider cronValid jsonParse s call lid now).scheduledCalls,
      c.id = call.id → c.status = "pending" ∨ c.status = "failed") ∧
    (resultOk (triggerCall cfg provider
        (updateScheduledCall s call.id fun c =>
          { c with status := "in_progress", lastRunAt := some now })
        (toCallData call (jsonParse call.twilioOptionsJson)) none lid now).result = true →
      ∀ c ∈ (executeScheduledCall cfg provider cronValid jsonParse s call lid now).scheduledCalls,
        c.id = call.id → c.status = "pending") := by
  simp only [executeScheduledCall]
  rcases hres : (triggerCall cfg provider
      (updateScheduledCall s call.id fun c =>
        { c with status := "in_progress", lastRunAt := some now })
      (toCallData call (jsonParse call.twilioOptionsJson)) none lid now).result with m | v
  · constructor
    · intro c hc hcid
      exact Or.inr (updateScheduledCall_row_status _ call.id
        (fun c => { c with status := "failed" }) "failed"
        (fun _ => rfl) (fun _ => rfl) c hc hcid)
    · intro hok
      simp [resultOk] at hok
  · rw [if_pos h]
    constructor
    · intro c hc hcid
      exact Or.inl (updateScheduledCall_row_status _ call.id
        (fun c =>
          { c with
            status := "pending"
            nextRunAt := (if cronValid (call.recurrencePattern.getD "") then some now else none) })
        "pending" (fun _ => rfl) (fun _ => rfl) c hc hcid)
    · intro _ c hc hcid
      exact updateScheduledCall_row_status _ call.id
        (fun c =>
          { c with
            status := "pending"
            nextRunAt := (if cronValid (call.recurrencePattern.getD "") then some now else none) })
        "pending" (fun _ => rfl) (fun _ => rfl) c hc hcid

theorem triggerRoute_recurring_statuses (cfg : Config) (provider : Provider)
    (cronValid : String → Bool) (jsonParse : String → TwilioOptionsParse)
    (st : EngineState) (tid lid1 lid2 : String) (now : Int) (call : ScheduledCall)
    (hfound : findScheduledCall st.store tid = some call)
    (hrec : call.recurrenceEnabled = true)
    (hpat : jsTruthy call.recurrencePattern = true) :
    (triggerScheduledCallRoute cfg provider cronValid jsonParse st tid lid1 lid2
        now).1.store.scheduledCalls.map (fun c => c.status)
      = st.store.scheduledCalls.map (fun c => c.status) := by
  simp only [triggerScheduledCallRoute, hfound]
  rcases hres : (triggerCall cfg provider st.store
      (toCallData call (jsonParse call.twilioOptionsJson)) none lid1 now).result with m | v
  · exact congrArg (List.map fun c => c.status)
      (triggerCall_scheduledCalls cfg provider st.store
        (toCallData call (jsonParse call.twilioOptionsJson)) none lid1 now)
  · rw [hrec]
    rcases hjp : jsonParse call.twilioOptionsJson with o | m2
    · refine Eq.trans (congrArg (fun s0 : Store => s0.scheduledCalls.map (fun c => c.status))
        (scheduleCall_store_recurring cfg provider cronValid jsonParse _ call lid2 now
          (by simp [hrec, hpat]))) ?_
      exact Eq.trans
        (statuses_updateScheduledCall _ call.id (fun c => { c with lastRunAt := some now })
          (fun c => rfl))
        (congrArg (List.map fun c => c.status)
          (triggerCall_scheduledCalls cfg provider st.store
            (toCallData call (TwilioOptionsParse.ok o)) none lid1 now))
    · exact Eq.trans
        (statuses_updateScheduledCall _ call.id (fun c => { c with lastRunAt := some now })
          (fun c => rfl))
        (congrArg (List.map fun c => c.status)
          (triggerCall_scheduledCalls cfg provider st.store
            (toCallData call (TwilioOptionsParse.err m2)) none lid1 now))

theorem createRoute_recurring_pending (cfg : Config) (provider : Provider)
    (cronValid : String → Bool) (jsonParse : String → TwilioOptionsParse)
    (st : EngineState) (input : CreateScheduledCallInput)
    (newId recFn lid1 lid2 : String) (now : Int)
    (hrec : input.recurrenceEnabled = true)
    (hpat : jsTruthy input.recurrencePattern = true)
    (hfresh : ∀ c ∈ st.store.scheduledCalls, c.id ≠ newId) :
    ∀ c ∈ (createScheduledCallRoute cfg provider cronValid jsonParse st input newId recFn
        lid1 lid2 now).1.store.scheduledCalls,
      c.id = newId → c.status = "pending" := by
  have hncs : (newScheduledCall input newId recFn).status = "pending" := by
    simp [newScheduledCall, hrec]
  have hcond : ((newScheduledCall input newId recFn).recurrenceEnabled &&
      jsTruthy (newScheduledCall input newId recFn).recurrencePattern) = true := by
    simp [newScheduledCall, hrec, hpat]
  have happend : ∀ c ∈ st.store.scheduledCalls ++ [newScheduledCall input newId recFn],
      c.id = newId → c.status = "pending" := by
    intro c hc hcid
    rcases List.mem_append.mp hc with h1 | h1
    · exact absurd hcid (hfresh c h1)
    · rw [List.mem_singleton] at h1
      subst h1
      exact hncs
  intro c hc hcid
  simp only [createScheduledCallRoute] at hc
  split at hc
  · split at hc
    · have hc2 : c ∈ (triggerCall cfg provider
          { st.store with scheduledCalls :=
              st.store.scheduledCalls ++ [newScheduledCall input newId recFn] }
          (toCallData (newScheduledCall input newId recFn)
            (jsonParse (newScheduledCall input newId recFn).twilioOptionsJson))
          none lid1 now).store.scheduledCalls := hc
      rw [triggerCall_scheduledCalls] at hc2
      exact happend c hc2 hcid
    · have hc2 : c ∈ (scheduleCall cfg provider cronValid jsonParse
            { store := updateScheduledCall (triggerCall cfg provider
                  { st.store with scheduledCalls :=
                      st.store.scheduledCalls ++ [newScheduledCall input newId recFn] }
                  (toCallData (newScheduledCall input newId recFn)
                    (jsonParse (newScheduledCall input newId recFn).twilioOptionsJson))
                  none lid1 now).store newId
                  (fun c => { c with lastRunAt := some now })
              registry := st.registry }
            (newScheduledCall input newId recFn) lid2 now).store.scheduledCalls := hc
      rw [scheduleCall_store_recurring _ _ _ _ _ _ _ _ hcond] at hc2
      obtain ⟨a, ha, hceq⟩ := mem_updateScheduledCall hc2
      have ha2 : a ∈ st.store.scheduledCalls ++ [newScheduledCall input newId recFn] := by
        have heq := triggerCall_scheduledCalls cfg provider
          { st.store with scheduledCalls :=
              st.store.scheduledCalls ++ [newScheduledCall input newId recFn] }
          (toCallData (newScheduledCall input newId recFn)
            (jsonParse (newScheduledCall input newId recFn).twilioOptionsJson)) none lid1 now
        rw [heq] at ha
        exact ha
      by_cases hid2 : a.id = newId
      · rw [if_pos hid2] at hceq
        subst hceq
        exact happend a ha2 hid2
      · rw [if_neg hid2] at hceq
        subst hceq
        exact absurd hcid hid2
  · have hc2 : c ∈ (scheduleCall cfg provider cronValid jsonParse
        { store := { st.store with scheduledCalls :=
            st.store.scheduledCalls ++ [newScheduledCall input newId recFn] }
          registry := st.registry }
        (newScheduledCall input newId recFn) lid2 now).store.scheduledCalls := hc
    rw [scheduleCall_store_recurring _ _ _ _ _ _ _ _ hcond] at hc2
    exact happend c hc2 hcid

/-- C3 amended: for a ScheduledCall with `recurrenceEnabled = true` *and a
truthy recurrence pattern*, no engine operation sets its status to
`completed`: a scheduled firing leaves it `pending` (success) or `failed`
(caught error) — so after each *successful* firing it returns to pending —
the manual-trigger endpoint never changes any stored status, and the
creation endpoint stores it as `pending`.  (Without a pattern the engine
treats the recurring-flagged call as one-shot and completes it, and a failed
firing ends `failed`, which is what the counterexample exhibits.) -/
theorem recurring_never_completed_amended (cfg : Config) (provider : Provider)
    (cronValid : String → Bool) (jsonParse : String → TwilioOptionsParse)
    (call : ScheduledCall)
    (hrec : call.recurrenceEnabled = true)
    (hpat : jsTruthy call.recurrencePattern = true) :
    (∀ (s : Store) (lid : String) (now : Int),
      ∀ c ∈ (executeScheduledCall cfg provider cronValid jsonParse s call lid
          now).scheduledCalls,
        c.id = call.id → c.status = "pending" ∨ c.status = "failed") ∧
    (∀ (s : Store) (lid : String) (now : Int),
      resultOk (triggerCall cfg provider
          (updateScheduledCall s call.id fun c =>
            { c with status := "in_progress", lastRunAt := some now })
          (toCallData call (jsonParse call.twilioOptionsJson)) none lid now).result = true →
      ∀ c ∈ (executeScheduledCall cfg provider cronValid jsonParse s call lid
          now).scheduledCalls,
        c.id = call.id → c.status = "pending") ∧
    (∀ (st : EngineState) (tid lid1 lid2 : String) (now : Int),
      findScheduledCall st.store tid = some call →
      (triggerScheduledCallRoute cfg provider cronValid jsonParse st tid lid1 lid2
          now).1.store.scheduledCalls.map (fun c => c.status)
        = st.store.scheduledCalls.map (fun c => c.status)) ∧
    (∀ (st : EngineState) (input : CreateScheduledCallInput)
        (newId recFn lid1 lid2 : String) (now : Int),
      input.recurrenceEnabled = true → jsTruthy input.recurrencePattern = true →
      (∀ c ∈ st.store.scheduledCalls, c.id ≠ newId) →
      ∀ c ∈ (createScheduledCallRoute cfg provider cronValid jsonParse st input newId
          recFn lid1 lid2 now).1.store.scheduledCalls,
        c.id = newId → c.status = "pending") := by
  have hb : (call.recurrenceEnabled && jsTruthy call.recurrencePattern) = true := by
    simp [hrec, hpat]
  refine ⟨?_, ?_, ?_, ?_⟩
  · intro s lid now
    exact (executeScheduledCall_recurring_status cfg provider cronValid jsonParse
      s call lid now hb).1
  · intro s lid now
    exact (executeScheduledCall_recurring_status cfg provider cronValid jsonParse
      s call lid now hb).2
  · intro st tid lid1 lid2 now hfound
    exact triggerRoute_recurring_statuses cfg provider cronValid jsonParse st tid lid1
      lid2 now call hfound hrec hpat
  · intro st input newId recFn lid1 lid2 now hrec2 hpat2 hfresh
    exact createRoute_recurring_pending cfg provider cronValid jsonParse st input newId
      recFn lid1 lid2 now hrec2 hpat2 hfresh

/-- A recurring daily call with a pattern. -/
def recurringDaily : ScheduledCall :=
  { id := "sc9", phoneNumber := "+15552223333", recordingId := "rec1", scheduledAt := 0,
    recurrenceEnabled := true, recurrencePattern := some "0 9 * * *" }

/-- Witness for C3 amended at a concrete recurring call. -/
theorem recurring_never_completed_amended_witness :
    recurringDaily.recurrenceEnabled = true ∧
    jsTruthy recurringDaily.recurrencePattern = true ∧
    (∀ c ∈ (executeScheduledCall cfgGood providerOk (fun _ => true)
        (fun _ => TwilioOptionsParse.ok {}) { scheduledCalls := [recurringDaily] }
        recurringDaily "lg9" 50).scheduledCalls,
      c.id = recurringDaily.id → c.status = "pending" ∨ c.status = "failed") :=
  ⟨by decide, by decide,
   (recurring_never_completed_amended cfgGood providerOk (fun _ => true)
      (fun _ => TwilioOptionsParse.ok {}) recurringDaily (by decide) (by decide)).1
     { scheduledCalls := [recurringDaily] } "lg9" 50⟩
